import Mathlib

/-!
Verification of the browser-side task-status polling client of the
`text_digest` plugin (source: `src/browsepy/plugin/text_digest/README.md`,
functions `getTaskRow`, `getTaskLoadBtn`, `getTaskStatusCell`,
`getTaskResultCell`, `disableTaskLoadBtn`, `enableTaskLoadBtn`,
`registerFileTransformation`, `fetchTaskStatus`, `loadTaskStatus`).

The DOM is modelled as a finite map from element ids to table rows; a row is
a list of cells; a cell optionally holds a button (its `firstChild`) and has
an `innerText`.  Network requests, timers and console output are modelled as
an explicit effect list emitted by each continuation, and each promise
continuation of the JavaScript source becomes a Lean function from the DOM
state to a new DOM state plus the effects it issues.  A JavaScript runtime
exception (e.g. reading `.cells` on `null`) is modelled with `Except`.
-/

namespace TextDigest

/-- A button element; only its `disabled` flag matters to this client. -/
structure Button where
  disabled : Bool
deriving Repr, DecidableEq

/-- A table cell: an optional button child (`firstChild`) and its text. -/
structure Cell where
  firstChild : Option Button
  innerText : String
deriving Repr, DecidableEq

/-- A table row: its list of cells (`row.cells`). -/
structure Row where
  cells : List Cell
deriving Repr, DecidableEq

/-- The DOM: an association list from element id to row, in document order.
`getElementById` returns the first row with a matching id. -/
structure Dom where
  rows : List (String × Row)
deriving Repr, DecidableEq

/-- Lookup of `document.getElementById`: first row whose id matches. -/
def findRow : List (String × Row) → String → Option Row
  | [], _ => none
  | (i, r) :: rest, id => if i = id then some r else findRow rest id

/-- JavaScript `document.getElementById(id) || null`. -/
def Dom.getElementById (dom : Dom) (id : String) : Option Row :=
  findRow dom.rows id

/-- Update the first row with a matching id (write through a row reference
obtained from `getElementById`). -/
def updateFirst : List (String × Row) → String → (Row → Row) → List (String × Row)
  | [], _, _ => []
  | (i, r) :: rest, id, f =>
      if i = id then (i, f r) :: rest else (i, r) :: updateFirst rest id f

/-- Apply a mutation to the row with the given id, if present. -/
def Dom.updateRow (dom : Dom) (id : String) (f : Row → Row) : Dom :=
  ⟨updateFirst dom.rows id f⟩

/-- Indexing `cells[i]` of a cell list: `none` past the end (JavaScript
`undefined`, coerced to `null` by the `|| null` in the helpers). -/
def nthCell : List Cell → Nat → Option Cell
  | [], _ => none
  | c :: _, 0 => some c
  | _ :: cs, Nat.succ n => nthCell cs n

/-- Replace the cell at index `i` (leaving the list unchanged if absent). -/
def modifyCellAt : List Cell → Nat → (Cell → Cell) → List Cell
  | [], _, _ => []
  | c :: cs, 0, f => f c :: cs
  | c :: cs, Nat.succ n, f => c :: modifyCellAt cs n f

/-- Assignment `row.cells[i].innerText = t` (skipped if the cell is absent). -/
def Row.setCellText (i : Nat) (t : String) (row : Row) : Row :=
  ⟨modifyCellAt row.cells i (fun c => { c with innerText := t })⟩

/-- Assignment `btn.disabled = v` where `btn` is `row.cells[3].firstChild`. -/
def Row.setBtnDisabled (v : Bool) (row : Row) : Row :=
  ⟨modifyCellAt row.cells 3
    (fun c => { c with firstChild := c.firstChild.map (fun b => { b with disabled := v }) })⟩

/-- A JavaScript runtime error propagating through a promise chain. -/
structure JsError where
  message : String
deriving Repr, DecidableEq

/-- The `TypeError` thrown by reading `.cells` on a `null` row. -/
def typeErrorNullCells : JsError := ⟨"TypeError"⟩

/-- The status payload `res.data` of `GET /digest/task/{id}`:
`{task_id, task_name, task_status, task_result}`. -/
structure TaskData where
  task_id : String
  task_name : String
  task_status : String
  task_result : String
deriving Repr, DecidableEq

/-- An observable effect issued by a continuation, in issue order.
`httpGetTaskStatus b` is `GET /digest/task/{b}`; `httpPostRegister b` is
`POST /digest/cp/register/{b}`; `setTimeoutFetch d t n` is a `setTimeout`
of `d` milliseconds whose callback logs and calls `fetchTaskStatus(t)`
(the closure captures `task_id = t` and `task_name = n`). -/
inductive Effect where
  | httpGetTaskStatus (brokerId : String)
  | httpPostRegister (brokerId : String)
  | setTimeoutFetch (delayMs : Nat) (taskId : String) (taskName : String)
  | consoleLog (msg : String)
  | consoleError (msg : String)
deriving Repr, DecidableEq

/-- Whether an effect is a status `GET` request. -/
def Effect.isGet : Effect → Bool
  | .httpGetTaskStatus _ => true
  | _ => false

/-- Whether an effect is a registration `POST` request. -/
def Effect.isPost : Effect → Bool
  | .httpPostRegister _ => true
  | _ => false

/-- Whether an effect is a scheduled timer. -/
def Effect.isTimeout : Effect → Bool
  | .setTimeoutFetch _ _ _ => true
  | _ => false

/-- Whether an effect is a `console.error` diagnostic. -/
def Effect.isConsoleError : Effect → Bool
  | .consoleError _ => true
  | _ => false

/-- Whether an effect issues or schedules any further request. -/
def Effect.isRequestOrTimeout (e : Effect) : Bool :=
  e.isGet || e.isPost || e.isTimeout

/-- The task id a scheduled timer will poll, if the effect is a timer. -/
def Effect.timeoutTarget : Effect → Option String
  | .setTimeoutFetch _ t _ => some t
  | _ => none

/-- Source `getTaskRow`: `document.getElementById("ct-" + brokerId) || null`. -/
def getTaskRow (dom : Dom) (brokerId : String) : Option Row :=
  dom.getElementById ("ct-" ++ brokerId)

/-- Value of `row.cells[3] && row.cells[3].firstChild || null` on a real row. -/
def getTaskLoadBtnOf (row : Row) : Option Button :=
  (nthCell row.cells 3).bind Cell.firstChild

/-- Source `getTaskLoadBtn(row)`: on a `null` argument, `row.cells` throws a
`TypeError`; otherwise `cell && cell.firstChild || null`. -/
def getTaskLoadBtn : Option Row → Except JsError (Option Button)
  | none => .error typeErrorNullCells
  | some row => .ok (getTaskLoadBtnOf row)

/-- Value of `row.cells[1] || null` on a real row. -/
def getTaskStatusCellOf (row : Row) : Option Cell :=
  nthCell row.cells 1

/-- Source `getTaskStatusCell(row)`: `row.cells[1] || null`, throwing a
`TypeError` when `row` is `null`. -/
def getTaskStatusCell : Option Row → Except JsError (Option Cell)
  | none => .error typeErrorNullCells
  | some row => .ok (getTaskStatusCellOf row)

/-- Value of `row.cells[4] || null` on a real row. -/
def getTaskResultCellOf (row : Row) : Option Cell :=
  nthCell row.cells 4

/-- Source `getTaskResultCell(row)`: `row.cells[4] || null`, throwing a
`TypeError` when `row` is `null`. -/
def getTaskResultCell : Option Row → Except JsError (Option Cell)
  | none => .error typeErrorNullCells
  | some row => .ok (getTaskResultCellOf row)

/-- Source `disableTaskLoadBtn`: look up the row, guard with
`row && getTaskLoadBtn(row) || null`, and set `btn.disabled = true`
only when the button exists. -/
def disableTaskLoadBtn (dom : Dom) (brokerId : String) : Dom :=
  match getTaskRow dom brokerId with
  | none => dom
  | some row =>
    match getTaskLoadBtnOf row with
    | none => dom
    | some _ => dom.updateRow ("ct-" ++ brokerId) (Row.setBtnDisabled true)

/-- Source `enableTaskLoadBtn`: as `disableTaskLoadBtn` with `disabled = false`. -/
def enableTaskLoadBtn (dom : Dom) (brokerId : String) : Dom :=
  match getTaskRow dom brokerId with
  | none => dom
  | some row =>
    match getTaskLoadBtnOf row with
    | none => dom
    | some _ => dom.updateRow ("ct-" ++ brokerId) (Row.setBtnDisabled false)

/-- The request issued synchronously by calling `fetchTaskStatus(brokerId)`:
`GET /digest/task/{brokerId}`. -/
def fetchTaskStatusRequest (brokerId : String) : Effect :=
  .httpGetTaskStatus brokerId

/-- The request issued synchronously by calling
`registerFileTransformation(brokerId)`: `POST /digest/cp/register/{brokerId}`. -/
def registerFileTransformationRequest (brokerId : String) : Effect :=
  .httpPostRegister brokerId

/-- Message of `console.log('Task complete!', task_id, task_name, task_status,
task_result)`. -/
def logComplete (d : TaskData) : String :=
  "Task complete! " ++ d.task_id ++ " " ++ d.task_name ++ " " ++
    d.task_status ++ " " ++ d.task_result

/-- Message of `console.log('Task failed!', ...)`. -/
def logFailed (d : TaskData) : String :=
  "Task failed! " ++ d.task_id ++ " " ++ d.task_name ++ " " ++
    d.task_status ++ " " ++ d.task_result

/-- Message of `console.log('Task pending.', ...)`. -/
def logPending (d : TaskData) : String :=
  "Task pending. " ++ d.task_id ++ " " ++ d.task_name ++ " " ++
    d.task_status ++ " " ++ d.task_result

/-- Message of `console.error('Failed to fetch status', brokerId, err)`. -/
def errFetchMsg (brokerId errText : String) : String :=
  "Failed to fetch status " ++ brokerId ++ " " ++ errText

/-- Message of `console.error('Failed to register transformation', brokerId, err)`. -/
def errRegisterMsg (brokerId errText : String) : String :=
  "Failed to register transformation " ++ brokerId ++ " " ++ errText

/-- Message of `console.log('File registered!', brokerId, res)`. -/
def logRegisteredMsg (brokerId resText : String) : String :=
  "File registered! " ++ brokerId ++ " " ++ resText

/-- The second `.then` continuation of `fetchTaskStatus` (the parsed-body
handler, README lines 168-193): destructures `res.data`, looks up the row
and its status/result cells (throwing a `TypeError` on a missing row),
writes the status cell, then branches on `task_status`: `SUCCESS` writes
`task_result` and calls `registerFileTransformation(brokerId)`; `FAILED` or
`NOT FOUND` writes `"No Result"`; anything else writes `"Pending"` and
schedules `setTimeout(() => fetchTaskStatus(task_id), 1500)`. -/
def fetchTaskStatusBody (brokerId : String) (data : TaskData) (dom : Dom) :
    Except JsError (Dom × List Effect) :=
  match getTaskStatusCell (getTaskRow dom brokerId),
        getTaskResultCell (getTaskRow dom brokerId) with
  | .error e, _ => .error e
  | .ok _, .error e => .error e
  | .ok statusCell, .ok resultCell =>
    let rid := "ct-" ++ brokerId
    let dom1 :=
      match statusCell with
      | some _ => Dom.updateRow dom rid (Row.setCellText 1 data.task_status)
      | none => dom
    if data.task_status = "SUCCESS" then
      let dom2 :=
        match resultCell with
        | some _ => Dom.updateRow dom1 rid (Row.setCellText 4 data.task_result)
        | none => dom1
      .ok (dom2, [Effect.consoleLog (logComplete data),
                  registerFileTransformationRequest brokerId])
    else if data.task_status = "FAILED" ∨ data.task_status = "NOT FOUND" then
      let dom2 :=
        match resultCell with
        | some _ => Dom.updateRow dom1 rid (Row.setCellText 4 "No Result")
        | none => dom1
      .ok (dom2, [Effect.consoleLog (logFailed data)])
    else
      let dom2 :=
        match resultCell with
        | some _ => Dom.updateRow dom1 rid (Row.setCellText 4 "Pending")
        | none => dom1
      .ok (dom2, [Effect.consoleLog (logPending data),
                  Effect.setTimeoutFetch 1500 data.task_id data.task_name])

/-- Outcome of the status `GET`: a network failure (promise rejection) or an
HTTP response with status code, status text, and parsed JSON body. -/
inductive FetchOutcome where
  | networkError (msg : String)
  | response (status : Nat) (statusText : String) (data : TaskData)
deriving Repr, DecidableEq

/-- The whole continuation chain of `fetchTaskStatus(brokerId)` applied to
the outcome of its `GET`: statuses 200 and 404 are parsed and handled by
`fetchTaskStatusBody`; any other status throws `Error(statusText)`; every
rejection reaches the `.catch`, which logs `console.error` and calls
`enableTaskLoadBtn(brokerId)`. -/
def fetchTaskStatusOnResponse (brokerId : String) (o : FetchOutcome) (dom : Dom) :
    Dom × List Effect :=
  match o with
  | .networkError msg =>
      (enableTaskLoadBtn dom brokerId, [.consoleError (errFetchMsg brokerId msg)])
  | .response status statusText data =>
      if status = 200 ∨ status = 404 then
        match fetchTaskStatusBody brokerId data dom with
        | .ok r => r
        | .error e =>
            (enableTaskLoadBtn dom brokerId,
             [.consoleError (errFetchMsg brokerId e.message)])
      else
        (enableTaskLoadBtn dom brokerId,
         [.consoleError (errFetchMsg brokerId statusText)])

/-- Outcome of the registration `POST`: a network failure or an HTTP
response whose JSON confirmation body is kept opaque. -/
inductive RegOutcome where
  | networkError (msg : String)
  | response (status : Nat) (statusText : String) (body : String)
deriving Repr, DecidableEq

/-- The continuation chain of `registerFileTransformation(brokerId)` applied
to the outcome of its `POST`: 201 parses the body and logs
`'File registered!'`; 400 calls `fetchTaskStatus(brokerId)` (the following
`.then` still runs, logging with `res = undefined`); any other status throws
`Error(statusText)`; rejections reach the `.catch`, which logs
`console.error` and calls `enableTaskLoadBtn(brokerId)`. -/
def registerOnResponse (brokerId : String) (o : RegOutcome) (dom : Dom) :
    Dom × List Effect :=
  match o with
  | .networkError msg =>
      (enableTaskLoadBtn dom brokerId, [.consoleError (errRegisterMsg brokerId msg)])
  | .response status statusText body =>
      if status = 201 then
        (dom, [.consoleLog (logRegisteredMsg brokerId body)])
      else if status = 400 then
        (dom, [fetchTaskStatusRequest brokerId,
               .consoleLog (logRegisteredMsg brokerId "undefined")])
      else
        (enableTaskLoadBtn dom brokerId,
         [.consoleError (errRegisterMsg brokerId statusText)])

/-- The `setTimeout` callback scheduled by the pending branch: logs
`'Refreshing task status'` and calls `fetchTaskStatus(task_id)`, issuing its
`GET`. -/
def timerCallback (taskId taskName : String) : List Effect :=
  [.consoleLog ("Refreshing task status " ++ taskId ++ " " ++ taskName),
   fetchTaskStatusRequest taskId]

/-- Source `loadTaskStatus`: `disableTaskLoadBtn(brokerId)` runs to
completion synchronously, then `fetchTaskStatus(brokerId)` issues its `GET`;
the returned pair is the DOM state in effect when that request is issued,
together with the effects issued. -/
def loadTaskStatus (dom : Dom) (brokerId : String) : Dom × List Effect :=
  (disableTaskLoadBtn dom brokerId, [fetchTaskStatusRequest brokerId])

/-- Observed `disabled` state of the handle's control: `none` when the row
or the button is missing. -/
def controlDisabled (dom : Dom) (brokerId : String) : Option Bool :=
  match getTaskRow dom brokerId with
  | none => none
  | some row => (getTaskLoadBtnOf row).map Button.disabled

/-- Observed text of the handle's result cell (`cells[4]`), if present. -/
def resultCellText (dom : Dom) (brokerId : String) : Option String :=
  match getTaskRow dom brokerId with
  | none => none
  | some row => (getTaskResultCellOf row).map Cell.innerText

/-- A pending asynchronous item of one handle's chain: an in-flight status
`GET`, a scheduled timer, or an in-flight registration `POST`. -/
inductive Pending where
  | statusReq (brokerId : String)
  | timer (taskId : String) (taskName : String)
  | regReq (brokerId : String)
deriving Repr, DecidableEq

/-- Whether a pending item is an outstanding status request. -/
def Pending.isStatusReq : Pending → Bool
  | .statusReq _ => true
  | _ => false

/-- The pending items spawned by issuing one effect. -/
def spawn : Effect → List Pending
  | .httpGetTaskStatus b => [.statusReq b]
  | .httpPostRegister b => [.regReq b]
  | .setTimeoutFetch _ t n => [.timer t n]
  | .consoleLog _ => []
  | .consoleError _ => []

/-- The pending items spawned by a list of effects, in issue order. -/
def spawnAll : List Effect → List Pending
  | [] => []
  | e :: es => spawn e ++ spawnAll es

/-- State of one handle's chain in the event loop: the DOM plus the pending
asynchronous items. -/
structure ChainState where
  dom : Dom
  pending : List Pending
deriving Repr, DecidableEq

/-- One event-loop step of a chain: some pending item completes (a response
arrives, or a timer fires) and its continuation runs atomically, mutating
the DOM and spawning the pending items of the effects it issues. -/
inductive Step : ChainState → ChainState → Prop where
  | statusResp (dom : Dom) (l1 l2 : List Pending) (b : String) (o : FetchOutcome) :
      Step ⟨dom, l1 ++ Pending.statusReq b :: l2⟩
           ⟨(fetchTaskStatusOnResponse b o dom).1,
            l1 ++ l2 ++ spawnAll (fetchTaskStatusOnResponse b o dom).2⟩
  | timerFire (dom : Dom) (l1 l2 : List Pending) (t n : String) :
      Step ⟨dom, l1 ++ Pending.timer t n :: l2⟩
           ⟨dom, l1 ++ l2 ++ spawnAll (timerCallback t n)⟩
  | regResp (dom : Dom) (l1 l2 : List Pending) (b : String) (o : RegOutcome) :
      Step ⟨dom, l1 ++ Pending.regReq b :: l2⟩
           ⟨(registerOnResponse b o dom).1,
            l1 ++ l2 ++ spawnAll (registerOnResponse b o dom).2⟩

/-- The number of outstanding status requests among the pending items. -/
def statusReqCount (l : List Pending) : Nat :=
  (l.filter Pending.isStatusReq).length

/-- The chain state right after `loadTaskStatus(brokerId)` returns: the
control is disabled and exactly one status `GET` is in flight. -/
def initialChain (dom : Dom) (brokerId : String) : ChainState :=
  ⟨(loadTaskStatus dom brokerId).1, spawnAll (loadTaskStatus dom brokerId).2⟩

/-- The text the `task_status` switch of `fetchTaskStatusBody` writes into
the result cell, per branch (derived abbreviation for stating lemmas). -/
def resultWriteText (data : TaskData) : String :=
  if data.task_status = "SUCCESS" then data.task_result
  else if data.task_status = "FAILED" ∨ data.task_status = "NOT FOUND" then "No Result"
  else "Pending"

/-- The effects the `task_status` switch of `fetchTaskStatusBody` issues, per
branch (derived abbreviation for stating lemmas). -/
def branchEffects (b : String) (data : TaskData) : List Effect :=
  if data.task_status = "SUCCESS" then
    [Effect.consoleLog (logComplete data), registerFileTransformationRequest b]
  else if data.task_status = "FAILED" ∨ data.task_status = "NOT FOUND" then
    [Effect.consoleLog (logFailed data)]
  else
    [Effect.consoleLog (logPending data),
     Effect.setTimeoutFetch 1500 data.task_id data.task_name]

/-- The DOM after the (null-checked) status-cell and result-cell writes of
`fetchTaskStatusBody`, when the handle's row is `row` (derived abbreviation
for stating lemmas). -/
def domAfterWrites (dom : Dom) (b : String) (row : Row) (statusText resText : String) : Dom :=
  let dom1 :=
    if (getTaskStatusCellOf row).isSome
    then Dom.updateRow dom ("ct-" ++ b) (Row.setCellText 1 statusText) else dom
  if (getTaskResultCellOf row).isSome
  then Dom.updateRow dom1 ("ct-" ++ b) (Row.setCellText 4 resText) else dom1

/-- A concrete button, initially disabled, for witness states. -/
def btnW : Button := ⟨true⟩

/-- A concrete task row with id, status, spare, control, and result cells. -/
def rowW : Row :=
  ⟨[⟨none, "abc123"⟩, ⟨none, "STARTED"⟩, ⟨none, ""⟩, ⟨some btnW, "Load"⟩, ⟨none, ""⟩]⟩

/-- A concrete DOM holding the row of handle `abc123`. -/
def domW : Dom := ⟨[("ct-abc123", rowW)]⟩

/-- A status payload whose `task_id` differs from the queried handle. -/
def dataMigrate : TaskData := ⟨"zzz", "digest", "PENDING", "null"⟩

/-- A successful status payload echoing handle `abc123`. -/
def dataSuccess : TaskData := ⟨"abc123", "digest", "SUCCESS", "done"⟩

/-- A failed status payload echoing handle `abc123`. -/
def dataFailed : TaskData := ⟨"abc123", "digest", "FAILED", "boom"⟩

/-- A DOM with no rows at all. -/
def domEmpty : Dom := ⟨[]⟩

/-- A successful status payload for handle `x7`. -/
def dataDone : TaskData := ⟨"x7", "digest", "SUCCESS", "done"⟩

/-! Basic lemmas about the DOM model. -/

theorem findRow_updateFirst (rows : List (String × Row)) (id : String) (f : Row → Row) :
    findRow (updateFirst rows id f) id = (findRow rows id).map f := by
  induction rows with
  | nil => rfl
  | cons p rest ih =>
      obtain ⟨i, r⟩ := p
      by_cases h : i = id <;> simp [findRow, updateFirst, h, ih]

theorem getTaskRow_updateRow (dom : Dom) (b : String) (f : Row → Row) :
    getTaskRow (Dom.updateRow dom ("ct-" ++ b) f) b = (getTaskRow dom b).map f := by
  simp [getTaskRow, Dom.getElementById, Dom.updateRow, findRow_updateFirst]

theorem nthCell_modifyCellAt (l : List Cell) (i : Nat) (f : Cell → Cell) (j : Nat) :
    nthCell (modifyCellAt l i f) j =
      if j = i then (nthCell l i).map f else nthCell l j := by
  induction l generalizing i j with
  | nil => cases i <;> cases j <;> simp [modifyCellAt, nthCell]
  | cons c cs ih =>
      cases i with
      | zero => cases j with
        | zero => simp [modifyCellAt, nthCell]
        | succ j => simp [modifyCellAt, nthCell]
      | succ i => cases j with
        | zero => simp [modifyCellAt, nthCell]
        | succ j => simpa [modifyCellAt, nthCell] using ih i j

theorem nthCell_setCellText (row : Row) (i : Nat) (t : String) (j : Nat) :
    nthCell (Row.setCellText i t row).cells j =
      if j = i then (nthCell row.cells i).map (fun c => { c with innerText := t })
      else nthCell row.cells j := by
  simp [Row.setCellText, nthCell_modifyCellAt]

theorem getTaskLoadBtnOf_setCellText (row : Row) (i : Nat) (t : String) :
    getTaskLoadBtnOf (Row.setCellText i t row) = getTaskLoadBtnOf row := by
  unfold getTaskLoadBtnOf
  rw [nthCell_setCellText]
  by_cases h : 3 = i
  · subst h
    simp only [if_pos rfl]
    cases nthCell row.cells 3 <;> rfl
  · simp [h]

theorem getTaskLoadBtnOf_setBtnDisabled (row : Row) (v : Bool) :
    getTaskLoadBtnOf (Row.setBtnDisabled v row) =
      (getTaskLoadBtnOf row).map (fun b => { b with disabled := v }) := by
  simp only [getTaskLoadBtnOf, Row.setBtnDisabled, nthCell_modifyCellAt, if_pos rfl]
  cases nthCell row.cells 3 with
  | none => rfl
  | some c => cases c.firstChild <;> rfl

theorem controlDisabled_updateRow_text (dom : Dom) (b : String) (i : Nat) (t : String) :
    controlDisabled (Dom.updateRow dom ("ct-" ++ b) (Row.setCellText i t)) b =
      controlDisabled dom b := by
  unfold controlDisabled
  rw [getTaskRow_updateRow]
  cases getTaskRow dom b with
  | none => rfl
  | some row => simp [getTaskLoadBtnOf_setCellText]

theorem enableTaskLoadBtn_of_no_row (dom : Dom) (b : String)
    (h : getTaskRow dom b = none) : enableTaskLoadBtn dom b = dom := by
  unfold enableTaskLoadBtn
  rw [h]

theorem controlDisabled_enable (dom : Dom) (b : String) :
    controlDisabled (enableTaskLoadBtn dom b) b =
      (controlDisabled dom b).map (fun _ => false) := by
  rcases hrow : getTaskRow dom b with _ | row
  · simp [controlDisabled, enableTaskLoadBtn, hrow]
  · rcases hbtn : getTaskLoadBtnOf row with _ | btn
    · simp [controlDisabled, enableTaskLoadBtn, hrow, hbtn]
    · simp [controlDisabled, enableTaskLoadBtn, hrow, hbtn,
        getTaskRow_updateRow, getTaskLoadBtnOf_setBtnDisabled]

theorem controlDisabled_disable (dom : Dom) (b : String) :
    controlDisabled (disableTaskLoadBtn dom b) b =
      (controlDisabled dom b).map (fun _ => true) := by
  rcases hrow : getTaskRow dom b with _ | row
  · simp [controlDisabled, disableTaskLoadBtn, hrow]
  · rcases hbtn : getTaskLoadBtnOf row with _ | btn
    · simp [controlDisabled, disableTaskLoadBtn, hrow, hbtn]
    · simp [controlDisabled, disableTaskLoadBtn, hrow, hbtn,
        getTaskRow_updateRow, getTaskLoadBtnOf_setBtnDisabled]

/-! Characterisation of the status-body continuation. -/

theorem fetchTaskStatusBody_no_row (b : String) (data : TaskData) (dom : Dom)
    (hrow : getTaskRow dom b = none) :
    fetchTaskStatusBody b data dom = .error typeErrorNullCells := by
  simp [fetchTaskStatusBody, hrow, getTaskStatusCell]

theorem fetchTaskStatusBody_ok_of_row (b : String) (data : TaskData) (dom : Dom)
    (row : Row) (hrow : getTaskRow dom b = some row) :
    fetchTaskStatusBody b data dom =
      .ok (domAfterWrites dom b row data.task_status (resultWriteText data),
           branchEffects b data) := by
  unfold fetchTaskStatusBody domAfterWrites resultWriteText branchEffects
  rw [hrow]
  by_cases h1 : data.task_status = "SUCCESS"
  · rcases hsc : getTaskStatusCellOf row with _ | sc <;>
      rcases hrc : getTaskResultCellOf row with _ | rc <;>
      simp [getTaskStatusCell, getTaskResultCell, h1, hsc, hrc]
  · by_cases h2 : data.task_status = "FAILED" ∨ data.task_status = "NOT FOUND"
    · rcases hsc : getTaskStatusCellOf row with _ | sc <;>
        rcases hrc : getTaskResultCellOf row with _ | rc <;>
        simp [getTaskStatusCell, getTaskResultCell, h1, h2, hsc, hrc]
    · rcases hsc : getTaskStatusCellOf row with _ | sc <;>
        rcases hrc : getTaskResultCellOf row with _ | rc <;>
        simp [getTaskStatusCell, getTaskResultCell, h1, h2, hsc, hrc]

theorem fetchTaskStatusOnResponse_ok (b : String) (data : TaskData) (dom : Dom)
    (row : Row) (hrow : getTaskRow dom b = some row) (st : Nat) (stx : String)
    (hst : st = 200 ∨ st = 404) :
    fetchTaskStatusOnResponse b (.response st stx data) dom =
      (domAfterWrites dom b row data.task_status (resultWriteText data),
       branchEffects b data) := by
  rcases hst with rfl | rfl <;>
    simp [fetchTaskStatusOnResponse, fetchTaskStatusBody_ok_of_row b data dom row hrow]

theorem fetchTaskStatusOnResponse_no_row (b : String) (data : TaskData) (dom : Dom)
    (hrow : getTaskRow dom b = none) (st : Nat) (stx : String)
    (hst : st = 200 ∨ st = 404) :
    fetchTaskStatusOnResponse b (.response st stx data) dom =
      (enableTaskLoadBtn dom b,
       [.consoleError (errFetchMsg b typeErrorNullCells.message)]) := by
  rcases hst with rfl | rfl <;>
    simp [fetchTaskStatusOnResponse, fetchTaskStatusBody_no_row b data dom hrow]

theorem resultCellText_domAfterWrites (dom : Dom) (b : String) (row : Row)
    (hrow : getTaskRow dom b = some row) (st rt : String) (c : Cell)
    (hc : getTaskResultCellOf row = some c) :
    resultCellText (domAfterWrites dom b row st rt) b = some rt := by
  have hc' : nthCell row.cells 4 = some c := hc
  unfold domAfterWrites
  rcases hsc : getTaskStatusCellOf row with _ | sc <;>
    simp [hsc, hc, resultCellText, getTaskRow_updateRow, hrow,
      getTaskResultCellOf, nthCell_setCellText, hc']

theorem controlDisabled_domAfterWrites (dom : Dom) (b : String) (row : Row)
    (st rt : String) :
    controlDisabled (domAfterWrites dom b row st rt) b = controlDisabled dom b := by
  unfold domAfterWrites
  rcases hsc : getTaskStatusCellOf row with _ | sc <;>
    rcases hrc : getTaskResultCellOf row with _ | rc <;>
    simp [hsc, hrc, controlDisabled_updateRow_text]

theorem domAfterWrites_id (dom : Dom) (b : String) (row : Row) (st rt : String)
    (h1 : getTaskStatusCellOf row = none) (h2 : getTaskResultCellOf row = none) :
    domAfterWrites dom b row st rt = dom := by
  simp [domAfterWrites, h1, h2]

/-! Spawn-count lemmas for the event-loop model. -/

theorem spawnAll_branchEffects_le_one (b : String) (data : TaskData) :
    (spawnAll (branchEffects b data)).length ≤ 1 := by
  unfold branchEffects
  by_cases h1 : data.task_status = "SUCCESS"
  · simp [h1, spawnAll, spawn, registerFileTransformationRequest]
  · by_cases h2 : data.task_status = "FAILED" ∨ data.task_status = "NOT FOUND" <;>
      simp [h1, h2, spawnAll, spawn]

theorem spawnAll_fetch_le_one (b : String) (o : FetchOutcome) (dom : Dom) :
    (spawnAll (fetchTaskStatusOnResponse b o dom).2).length ≤ 1 := by
  rcases o with msg | ⟨st, stx, data⟩
  · simp [fetchTaskStatusOnResponse, spawnAll, spawn]
  · by_cases hst : st = 200 ∨ st = 404
    · rcases hrow : getTaskRow dom b with _ | row
      · rw [fetchTaskStatusOnResponse_no_row b data dom hrow st stx hst]
        simp [spawnAll, spawn]
      · rw [fetchTaskStatusOnResponse_ok b data dom row hrow st stx hst]
        exact spawnAll_branchEffects_le_one b data
    · simp [fetchTaskStatusOnResponse, hst, spawnAll, spawn]

theorem spawnAll_reg_le_one (b : String) (o : RegOutcome) (dom : Dom) :
    (spawnAll (registerOnResponse b o dom).2).length ≤ 1 := by
  rcases o with msg | ⟨st, stx, body⟩
  · simp [registerOnResponse, spawnAll, spawn]
  · by_cases h1 : st = 201
    · simp [registerOnResponse, h1, spawnAll, spawn]
    · by_cases h2 : st = 400 <;>
        simp [registerOnResponse, h1, h2, spawnAll, spawn, fetchTaskStatusRequest]

theorem spawnAll_timer_len (t n : String) :
    (spawnAll (timerCallback t n)).length = 1 := by
  simp [timerCallback, spawnAll, spawn, fetchTaskStatusRequest]

theorem step_pending_le_one (s s' : ChainState) (h : Step s s')
    (hl : s.pending.length ≤ 1) : s'.pending.length ≤ 1 := by
  cases h with
  | statusResp dom l1 l2 b o =>
      have hs := spawnAll_fetch_le_one b o dom
      simp only [List.length_append, List.length_cons] at hl ⊢
      omega
  | timerFire dom l1 l2 t n =>
      have hs := spawnAll_timer_len t n
      simp only [List.length_append, List.length_cons] at hl ⊢
      omega
  | regResp dom l1 l2 b o =>
      have hs := spawnAll_reg_le_one b o dom
      simp only [List.length_append, List.length_cons] at hl ⊢
      omega

theorem chain_pending_le_one (dom : Dom) (b : String) (s : ChainState)
    (h : Relation.ReflTransGen Step (initialChain dom b) s) :
    s.pending.length ≤ 1 := by
  induction h with
  | refl =>
      simp [initialChain, loadTaskStatus, spawnAll, spawn, fetchTaskStatusRequest]
  | tail _ hstep ih => exact step_pending_le_one _ _ hstep ih

/-! Claim theorems. -/

/-- C1 counterexample: for the pending response `{task_id: "zzz", task_status:
"PENDING"}` to a status query of handle `"abc123"`, the single scheduled
follow-up fetch targets `"zzz"`, the id carried in the response body — not
the queried handle `"abc123"` — so the follow-up does not request the status
of the same task handle. -/
theorem pending_followup_same_handle_cex :
    ((fetchTaskStatusOnResponse "abc123"
        (FetchOutcome.response 200 "OK" dataMigrate) domW).2.filterMap
          Effect.timeoutTarget = ["zzz"]) ∧ ("zzz" : String) ≠ "abc123" :=
  ⟨rfl, by decide⟩

/-- C1 (amended): for every status response whose `task_status` is none of
`SUCCESS`, `FAILED`, `NOT FOUND`, delivered with HTTP 200 or 404 while the
handle's row is present, `fetchTaskStatus` writes `"Pending"` into the
result cell (when that cell exists), schedules exactly one follow-up status
fetch after the fixed 1500 ms delay — a follow-up that requests the status
of the `task_id` reported in the response body, which is the queried handle
whenever the server echoes it — issues no other request, and the scheduled
callback issues exactly one status `GET` for that id. -/
theorem pending_reschedules (dom : Dom) (b : String) (data : TaskData) (row : Row)
    (hrow : getTaskRow dom b = some row)
    (h1 : data.task_status ≠ "SUCCESS") (h2 : data.task_status ≠ "FAILED")
    (h3 : data.task_status ≠ "NOT FOUND")
    (st : Nat) (stx : String) (hst : st = 200 ∨ st = 404) :
    (∀ c, getTaskResultCellOf row = some c →
      resultCellText (fetchTaskStatusOnResponse b (.response st stx data) dom).1 b =
        some "Pending") ∧
    (fetchTaskStatusOnResponse b (.response st stx data) dom).2.filter
        Effect.isTimeout = [Effect.setTimeoutFetch 1500 data.task_id data.task_name] ∧
    (fetchTaskStatusOnResponse b (.response st stx data) dom).2.filter
        (fun e => e.isGet || e.isPost) = [] ∧
    (timerCallback data.task_id data.task_name).filter Effect.isGet =
      [fetchTaskStatusRequest data.task_id] := by
  rw [fetchTaskStatusOnResponse_ok b data dom row hrow st stx hst]
  have hrt : resultWriteText data = "Pending" := by
    simp [resultWriteText, h1, h2, h3]
  have hbe : branchEffects b data =
      [Effect.consoleLog (logPending data),
       Effect.setTimeoutFetch 1500 data.task_id data.task_name] := by
    simp [branchEffects, h1, h2, h3]
  refine ⟨?_, ?_, ?_, ?_⟩
  · intro c hc
    have hres := resultCellText_domAfterWrites dom b row hrow data.task_status
      (resultWriteText data) c hc
    simpa [hrt] using hres
  · simp [hbe, Effect.isTimeout]
  · simp [hbe, Effect.isGet, Effect.isPost]
  · simp [timerCallback, Effect.isGet, fetchTaskStatusRequest]

/-- C1 witness: the amended theorem applied at the concrete pending response
`dataMigrate` of handle `"abc123"` in the concrete DOM `domW`. -/
theorem pending_reschedules_witness :
    getTaskRow domW "abc123" = some rowW ∧
    ((∀ c, getTaskResultCellOf rowW = some c →
        resultCellText (fetchTaskStatusOnResponse "abc123"
          (FetchOutcome.response 200 "OK" dataMigrate) domW).1 "abc123" =
          some "Pending") ∧
     (fetchTaskStatusOnResponse "abc123"
        (FetchOutcome.response 200 "OK" dataMigrate) domW).2.filter
          Effect.isTimeout = [Effect.setTimeoutFetch 1500 "zzz" "digest"] ∧
     (fetchTaskStatusOnResponse "abc123"
        (FetchOutcome.response 200 "OK" dataMigrate) domW).2.filter
          (fun e => e.isGet || e.isPost) = [] ∧
     (timerCallback "zzz" "digest").filter Effect.isGet =
        [fetchTaskStatusRequest "zzz"]) :=
  ⟨by decide, pending_reschedules domW "abc123" dataMigrate rowW (by decide)
      (by decide) (by decide) (by decide) 200 "OK" (Or.inl rfl)⟩

/-- C2: for every status response with `task_status = "SUCCESS"` delivered
with HTTP 200 or 404 while the handle's row is present, `fetchTaskStatus`
writes the response's `task_result` into the result cell (when that cell
exists), issues exactly one registration request for the queried handle,
and neither issues nor schedules any further status fetch. -/
theorem success_registers_once (dom : Dom) (b : String) (data : TaskData) (row : Row)
    (hrow : getTaskRow dom b = some row) (hs : data.task_status = "SUCCESS")
    (st : Nat) (stx : String) (hst : st = 200 ∨ st = 404) :
    (∀ c, getTaskResultCellOf row = some c →
      resultCellText (fetchTaskStatusOnResponse b (.response st stx data) dom).1 b =
        some data.task_result) ∧
    (fetchTaskStatusOnResponse b (.response st stx data) dom).2.filter
        Effect.isPost = [registerFileTransformationRequest b] ∧
    (fetchTaskStatusOnResponse b (.response st stx data) dom).2.filter
        (fun e => e.isGet || e.isTimeout) = [] := by
  rw [fetchTaskStatusOnResponse_ok b data dom row hrow st stx hst]
  have hrt : resultWriteText data = data.task_result := by
    simp [resultWriteText, hs]
  have hbe : branchEffects b data =
      [Effect.consoleLog (logComplete data), registerFileTransformationRequest b] := by
    simp [branchEffects, hs]
  refine ⟨?_, ?_, ?_⟩
  · intro c hc
    have hres := resultCellText_domAfterWrites dom b row hrow data.task_status
      (resultWriteText data) c hc
    simpa [hrt] using hres
  · simp [hbe, Effect.isPost, registerFileTransformationRequest]
  · simp [hbe, Effect.isGet, Effect.isTimeout, registerFileTransformationRequest]

/-- C2 witness: the theorem applied at the concrete successful response
`dataSuccess` of handle `"abc123"` in the concrete DOM `domW`. -/
theorem success_registers_once_witness :
    getTaskRow domW "abc123" = some rowW ∧
    dataSuccess.task_status = "SUCCESS" ∧
    ((∀ c, getTaskResultCellOf rowW = some c →
        resultCellText (fetchTaskStatusOnResponse "abc123"
          (FetchOutcome.response 200 "OK" dataSuccess) domW).1 "abc123" =
          some "done") ∧
     (fetchTaskStatusOnResponse "abc123"
        (FetchOutcome.response 200 "OK" dataSuccess) domW).2.filter
          Effect.isPost = [registerFileTransformationRequest "abc123"] ∧
     (fetchTaskStatusOnResponse "abc123"
        (FetchOutcome.response 200 "OK" dataSuccess) domW).2.filter
          (fun e => e.isGet || e.isTimeout) = []) :=
  ⟨by decide, by decide,
   success_registers_once domW "abc123" dataSuccess rowW (by decide) (by decide)
     200 "OK" (Or.inl rfl)⟩

/-- C3: for every status response with `task_status` equal to `"FAILED"` or
`"NOT FOUND"`, delivered with HTTP 200 or 404 while the handle's row is
present, `fetchTaskStatus` writes the fixed placeholder `"No Result"` into
the result cell (when that cell exists) and neither issues nor schedules any
further request: the polling chain terminates. -/
theorem terminal_failure_no_result (dom : Dom) (b : String) (data : TaskData)
    (row : Row) (hrow : getTaskRow dom b = some row)
    (hs : data.task_status = "FAILED" ∨ data.task_status = "NOT FOUND")
    (st : Nat) (stx : String) (hst : st = 200 ∨ st = 404) :
    (∀ c, getTaskResultCellOf row = some c →
      resultCellText (fetchTaskStatusOnResponse b (.response st stx data) dom).1 b =
        some "No Result") ∧
    (fetchTaskStatusOnResponse b (.response st stx data) dom).2.filter
        Effect.isRequestOrTimeout = [] := by
  rw [fetchTaskStatusOnResponse_ok b data dom row hrow st stx hst]
  have hns : data.task_status ≠ "SUCCESS" := by
    rcases hs with h | h <;> rw [h] <;> decide
  have hrt : resultWriteText data = "No Result" := by
    unfold resultWriteText
    rw [if_neg hns, if_pos hs]
  have hbe : branchEffects b data = [Effect.consoleLog (logFailed data)] := by
    unfold branchEffects
    rw [if_neg hns, if_pos hs]
  refine ⟨?_, ?_⟩
  · intro c hc
    have hres := resultCellText_domAfterWrites dom b row hrow data.task_status
      (resultWriteText data) c hc
    simpa [hrt] using hres
  · simp [hbe, Effect.isRequestOrTimeout, Effect.isGet, Effect.isPost, Effect.isTimeout]

/-- C3 witness: the theorem applied at the concrete failed response
`dataFailed` of handle `"abc123"` in the concrete DOM `domW`. -/
theorem terminal_failure_no_result_witness :
    getTaskRow domW "abc123" = some rowW ∧
    (dataFailed.task_status = "FAILED" ∨ dataFailed.task_status = "NOT FOUND") ∧
    ((∀ c, getTaskResultCellOf rowW = some c →
        resultCellText (fetchTaskStatusOnResponse "abc123"
          (FetchOutcome.response 404 "Not Found" dataFailed) domW).1 "abc123" =
          some "No Result") ∧
     (fetchTaskStatusOnResponse "abc123"
        (FetchOutcome.response 404 "Not Found" dataFailed) domW).2.filter
          Effect.isRequestOrTimeout = []) :=
  ⟨by decide, Or.inl (by decide),
   terminal_failure_no_result domW "abc123" dataFailed rowW (by decide)
     (Or.inl (by decide)) 404 "Not Found" (Or.inr rfl)⟩

/-- C4: every transport-level failure — a network error or an HTTP status
other than 200 or 404 on the status fetch, or a network error or an HTTP
status other than 201 or 400 on the registration request — runs the
`.catch` handler, which re-enables the handle's control
(`enableTaskLoadBtn`, setting its `disabled` to `false` whenever the
control exists), emits exactly one `console.error` diagnostic and nothing
else, and neither issues nor schedules any further request. -/
theorem transport_failure_recovers (dom : Dom) (b : String) :
    (∀ msg, fetchTaskStatusOnResponse b (.networkError msg) dom =
        (enableTaskLoadBtn dom b, [Effect.consoleError (errFetchMsg b msg)])) ∧
    (∀ st stx data, st ≠ 200 → st ≠ 404 →
        fetchTaskStatusOnResponse b (.response st stx data) dom =
          (enableTaskLoadBtn dom b, [Effect.consoleError (errFetchMsg b stx)])) ∧
    (∀ msg, registerOnResponse b (.networkError msg) dom =
        (enableTaskLoadBtn dom b, [Effect.consoleError (errRegisterMsg b msg)])) ∧
    (∀ st stx body, st ≠ 201 → st ≠ 400 →
        registerOnResponse b (.response st stx body) dom =
          (enableTaskLoadBtn dom b, [Effect.consoleError (errRegisterMsg b stx)])) ∧
    (∀ v, controlDisabled dom b = some v →
        controlDisabled (enableTaskLoadBtn dom b) b = some false) := by
  refine ⟨fun msg => rfl, ?_, fun msg => rfl, ?_, ?_⟩
  · intro st stx data hn1 hn2
    have hor : ¬(st = 200 ∨ st = 404) := by
      intro h
      rcases h with h | h
      · exact hn1 h
      · exact hn2 h
    simp [fetchTaskStatusOnResponse, hor]
  · intro st stx body hn1 hn2
    simp [registerOnResponse, hn1, hn2]
  · intro v hv
    rw [controlDisabled_enable, hv]
    rfl

/-- C4 witness: the theorem applied in the concrete DOM `domW` for handle
`"abc123"`, at HTTP 500 on the status fetch and HTTP 500 on the
registration, with the disabled control re-enabled. -/
theorem transport_failure_recovers_witness :
    fetchTaskStatusOnResponse "abc123" (FetchOutcome.response 500 "ERR" dataSuccess)
        domW =
      (enableTaskLoadBtn domW "abc123",
       [Effect.consoleError (errFetchMsg "abc123" "ERR")]) ∧
    registerOnResponse "abc123" (RegOutcome.response 500 "ERR" "") domW =
      (enableTaskLoadBtn domW "abc123",
       [Effect.consoleError (errRegisterMsg "abc123" "ERR")]) ∧
    controlDisabled (enableTaskLoadBtn domW "abc123") "abc123" = some false :=
  ⟨(transport_failure_recovers domW "abc123").2.1 500 "ERR" dataSuccess
      (by decide) (by decide),
   (transport_failure_recovers domW "abc123").2.2.2.1 500 "ERR" ""
      (by decide) (by decide),
   (transport_failure_recovers domW "abc123").2.2.2.2 true (by decide)⟩

/-- C5: when the registration request receives HTTP 400, exactly one
follow-up status fetch is issued for the same handle, the control's
disabled state is left untouched (the DOM is unchanged), and no error is
surfaced: the effects are the follow-up `GET` and a `console.log`, with no
`console.error`. -/
theorem register_conflict_refetches (dom : Dom) (b stx body : String) :
    registerOnResponse b (.response 400 stx body) dom =
      (dom, [fetchTaskStatusRequest b,
             Effect.consoleLog (logRegisteredMsg b "undefined")]) ∧
    (registerOnResponse b (.response 400 stx body) dom).2.filter Effect.isGet =
      [fetchTaskStatusRequest b] ∧
    (registerOnResponse b (.response 400 stx body) dom).2.filter
        Effect.isConsoleError = [] ∧
    controlDisabled (registerOnResponse b (.response 400 stx body) dom).1 b =
      controlDisabled dom b := by
  refine ⟨?_, ?_, ?_, ?_⟩ <;>
    simp [registerOnResponse, fetchTaskStatusRequest, Effect.isGet,
      Effect.isConsoleError]

/-- C6: one call to `loadTaskStatus` disables the handle's control
synchronously, before any network request is issued: the returned pair is
the DOM state in effect when the single status `GET` is issued, the control
is already disabled in that state, and the only network effect is that
`GET`. -/
theorem loader_disables_before_fetch (dom : Dom) (b : String) (v : Bool)
    (hv : controlDisabled dom b = some v) :
    loadTaskStatus dom b = (disableTaskLoadBtn dom b, [fetchTaskStatusRequest b]) ∧
    controlDisabled (loadTaskStatus dom b).1 b = some true ∧
    (loadTaskStatus dom b).2 = [Effect.httpGetTaskStatus b] := by
  refine ⟨rfl, ?_, rfl⟩
  show controlDisabled (disableTaskLoadBtn dom b) b = some true
  rw [controlDisabled_disable, hv]
  rfl

/-- C6 witness: the theorem applied in the concrete DOM `domW` for handle
`"abc123"`, whose control exists. -/
theorem loader_disables_before_fetch_witness :
    controlDisabled domW "abc123" = some true ∧
    (loadTaskStatus domW "abc123" =
      (disableTaskLoadBtn domW "abc123", [fetchTaskStatusRequest "abc123"]) ∧
     controlDisabled (loadTaskStatus domW "abc123").1 "abc123" = some true ∧
     (loadTaskStatus domW "abc123").2 = [Effect.httpGetTaskStatus "abc123"]) :=
  ⟨by decide, loader_disables_before_fetch domW "abc123" true (by decide)⟩

/-- C7 counterexample: with no row for handle `"x7"` in the DOM, the body
continuation of `fetchTaskStatus` passes the `null` row to the cell-lookup
helpers and `row.cells` raises a `TypeError` — so lookup against a missing
row does raise an exception (it is then caught by the promise `.catch`). -/
theorem missing_row_lookup_raises_cex :
    getTaskRow domEmpty "x7" = none ∧
    fetchTaskStatusBody "x7" dataDone domEmpty = Except.error typeErrorNullCells :=
  ⟨rfl, rfl⟩

/-- C7 (amended): when the handle's row exists, the cell and button lookups
never raise and the status-body continuation always succeeds; when a looked
up cell is missing, the corresponding write is skipped (with both cells
missing the DOM is left unchanged); and the guarded mutation helpers
`disableTaskLoadBtn` / `enableTaskLoadBtn` null-check the row and skip the
write on a missing row.  However, the cell-lookup helpers applied to a
missing (null) row raise a `TypeError`, which `fetchTaskStatus` only
recovers from via its promise `.catch`. -/
theorem lookup_fail_soft (dom : Dom) (b : String) (data : TaskData) (row : Row)
    (hrow : getTaskRow dom b = some row) :
    (∃ r, getTaskLoadBtn (some row) = .ok r) ∧
    (∃ r, getTaskStatusCell (some row) = .ok r) ∧
    (∃ r, getTaskResultCell (some row) = .ok r) ∧
    (∃ dom2 effs, fetchTaskStatusBody b data dom = .ok (dom2, effs)) ∧
    (getTaskStatusCellOf row = none → getTaskResultCellOf row = none →
      ∃ effs, fetchTaskStatusBody b data dom = .ok (dom, effs)) ∧
    (∀ dom2 : Dom, getTaskRow dom2 b = none →
      disableTaskLoadBtn dom2 b = dom2 ∧ enableTaskLoadBtn dom2 b = dom2) := by
  refine ⟨⟨_, rfl⟩, ⟨_, rfl⟩, ⟨_, rfl⟩, ?_, ?_, ?_⟩
  · exact ⟨_, _, fetchTaskStatusBody_ok_of_row b data dom row hrow⟩
  · intro h1 h2
    refine ⟨branchEffects b data, ?_⟩
    rw [fetchTaskStatusBody_ok_of_row b data dom row hrow,
        domAfterWrites_id dom b row _ _ h1 h2]
  · intro dom2 h
    constructor
    · unfold disableTaskLoadBtn
      rw [h]
    · unfold enableTaskLoadBtn
      rw [h]

/-- C7 witness: the amended theorem applied in the concrete DOM `domW` for
handle `"abc123"` and the successful payload `dataSuccess`. -/
theorem lookup_fail_soft_witness :
    getTaskRow domW "abc123" = some rowW ∧
    ((∃ r, getTaskLoadBtn (some rowW) = .ok r) ∧
     (∃ r, getTaskStatusCell (some rowW) = .ok r) ∧
     (∃ r, getTaskResultCell (some rowW) = .ok r) ∧
     (∃ dom2 effs, fetchTaskStatusBody "abc123" dataSuccess domW = .ok (dom2, effs)) ∧
     (getTaskStatusCellOf rowW = none → getTaskResultCellOf rowW = none →
       ∃ effs, fetchTaskStatusBody "abc123" dataSuccess domW = .ok (domW, effs)) ∧
     (∀ dom2 : Dom, getTaskRow dom2 "abc123" = none →
       disableTaskLoadBtn dom2 "abc123" = dom2 ∧
       enableTaskLoadBtn dom2 "abc123" = dom2)) :=
  ⟨by decide, lookup_fail_soft domW "abc123" dataSuccess rowW (by decide)⟩

/-- C8: for every status response with `task_status` equal to `"FAILED"` or
`"NOT FOUND"` delivered with HTTP 200 or 404, the handle's control keeps
exactly the disabled state it had before the response was handled: the
domain-terminal-failure branch writes only cell text and never re-enables
the control (only transport failures run `enableTaskLoadBtn`). -/
theorem terminal_failure_keeps_disabled (dom : Dom) (b : String) (data : TaskData)
    (hs : data.task_status = "FAILED" ∨ data.task_status = "NOT FOUND")
    (st : Nat) (stx : String) (hst : st = 200 ∨ st = 404) :
    controlDisabled (fetchTaskStatusOnResponse b (.response st stx data) dom).1 b =
      controlDisabled dom b := by
  rcases hrow : getTaskRow dom b with _ | row
  · simp [fetchTaskStatusOnResponse_no_row b data dom hrow st stx hst,
      enableTaskLoadBtn_of_no_row dom b hrow]
  · simp [fetchTaskStatusOnResponse_ok b data dom row hrow st stx hst,
      controlDisabled_domAfterWrites]

/-- C8 witness: the theorem applied at the concrete failed response
`dataFailed` in `domW`, whose control is disabled before and after. -/
theorem terminal_failure_keeps_disabled_witness :
    (dataFailed.task_status = "FAILED" ∨ dataFailed.task_status = "NOT FOUND") ∧
    controlDisabled (fetchTaskStatusOnResponse "abc123"
        (FetchOutcome.response 200 "OK" dataFailed) domW).1 "abc123" =
      controlDisabled domW "abc123" :=
  ⟨Or.inl (by decide),
   terminal_failure_keeps_disabled domW "abc123" dataFailed (Or.inl (by decide))
     200 "OK" (Or.inl rfl)⟩

/-- C9: within one handle's polling chain, every state reachable in the
event loop from the chain started by `loadTaskStatus` has at most one
outstanding status request: each continuation spawns at most one pending
item, and a next status request is only issued from inside the previous
response's continuation (after the fixed delay, or via the registration
400 fallback), so the chain's requests are strictly serial. -/
theorem statusRequests_serial (dom : Dom) (b : String) (s : ChainState)
    (h : Relation.ReflTransGen Step (initialChain dom b) s) :
    statusReqCount s.pending ≤ 1 :=
  le_trans (List.length_filter_le _ _) (chain_pending_le_one dom b s h)

/-- C9 witness: the theorem applied to the initial chain state of handle
`"abc123"` in the concrete DOM `domW`. -/
theorem statusRequests_serial_witness :
    statusReqCount (initialChain domW "abc123").pending ≤ 1 :=
  statusRequests_serial domW "abc123" (initialChain domW "abc123")
    Relation.ReflTransGen.refl

/-- C10: when `fetchTaskStatus(brokerId)` reschedules on a pending status,
the follow-up fetch is issued for `res.data.task_id` taken from the
response body, not for the `brokerId` argument: the scheduled timer targets
`task_id` (and not the queried handle when the two differ), and its
callback issues the status `GET` for `task_id`, migrating the chain — and
all subsequent row lookups — to the server-reported identifier. -/
theorem reschedule_targets_response_id (dom : Dom) (b : String) (data : TaskData)
    (row : Row) (hrow : getTaskRow dom b = some row)
    (h1 : data.task_status ≠ "SUCCESS") (h2 : data.task_status ≠ "FAILED")
    (h3 : data.task_status ≠ "NOT FOUND")
    (st : Nat) (stx : String) (hst : st = 200 ∨ st = 404)
    (hne : data.task_id ≠ b) :
    (fetchTaskStatusOnResponse b (.response st stx data) dom).2.filterMap
        Effect.timeoutTarget = [data.task_id] ∧
    (fetchTaskStatusOnResponse b (.response st stx data) dom).2.filterMap
        Effect.timeoutTarget ≠ [b] ∧
    (timerCallback data.task_id data.task_name).filter Effect.isGet =
      [fetchTaskStatusRequest data.task_id] := by
  rw [fetchTaskStatusOnResponse_ok b data dom row hrow st stx hst]
  have hbe : branchEffects b data =
      [Effect.consoleLog (logPending data),
       Effect.setTimeoutFetch 1500 data.task_id data.task_name] := by
    simp [branchEffects, h1, h2, h3]
  refine ⟨?_, ?_, ?_⟩
  · simp [hbe, Effect.timeoutTarget]
  · simp [hbe, Effect.timeoutTarget, hne]
  · simp [timerCallback, Effect.isGet, fetchTaskStatusRequest]

/-- C10 witness: the theorem applied at the concrete pending response
`dataMigrate`, whose `task_id = "zzz"` differs from the queried handle
`"abc123"`. -/
theorem reschedule_targets_response_id_witness :
    dataMigrate.task_id ≠ "abc123" ∧
    ((fetchTaskStatusOnResponse "abc123"
        (FetchOutcome.response 200 "OK" dataMigrate) domW).2.filterMap
          Effect.timeoutTarget = ["zzz"] ∧
     (fetchTaskStatusOnResponse "abc123"
        (FetchOutcome.response 200 "OK" dataMigrate) domW).2.filterMap
          Effect.timeoutTarget ≠ ["abc123"] ∧
     (timerCallback "zzz" "digest").filter Effect.isGet =
        [fetchTaskStatusRequest "zzz"]) :=
  ⟨by decide,
   reschedule_targets_response_id domW "abc123" dataMigrate rowW (by decide)
     (by decide) (by decide) (by decide) 200 "OK" (Or.inl rfl) (by decide)⟩

end TextDigest
